import Mathlib

/-!
# Verification of the Article-Person-Verification workflow

Shallow embedding of the repository `Rodio346/Article_person_verification`:
the local name matcher (`src/utils/web_scraper.py`), the article fetcher,
the oracle client with retry (`call_llm_with_retry` in `src/graph/nodes.py`),
the decision nodes, the routing functions (`src/graph/edges.py`) and the
compiled workflow (`src/graph/workflow.py`).

External effects are passed in as explicit parameters: the HTTP outcome of a
fetch, the outcome of one oracle call (`Except` of an error message or a
response text with usage counters), and the JSON decoding function applied to
the cleaned response text.  Machine strings are Lean `String`s; the handful of
Unicode facts the matcher relies on (NFD decomposition and combining-mark
classes for the accented Latin letters in play) are modelled by an explicit
finite table.
-/

/-! ## Unicode model: NFD decomposition and combining marks

`normalize_for_matching` in the source decomposes with `unicodedata.normalize('NFD', ...)`,
drops characters of category `Mn`, and lowercases.  We model the decomposition
by a finite table covering the accented Latin letters used in this development;
characters outside the table decompose to themselves. -/

/-- Combining marks (Unicode category `Mn`) used by the decomposition table:
combining acute (U+0301), grave (U+0300), tilde (U+0303), diaeresis (U+0308),
circumflex (U+0302), cedilla (U+0327). -/
def combiningMarks : List Char :=
  ['́', '̀', '̃', '̈', '̂', '̧']

/-- `True` on the modelled combining marks (category `Mn`). -/
def isCombiningMark (c : Char) : Bool := combiningMarks.contains c

/-- NFD decomposition table: accented character, base character, combining mark. -/
def accentTable : List (Char × Char × Char) :=
  [('á', 'a', '́'), ('é', 'e', '́'), ('í', 'i', '́'),
   ('ó', 'o', '́'), ('ú', 'u', '́'),
   ('à', 'a', '̀'), ('è', 'e', '̀'), ('ì', 'i', '̀'),
   ('ò', 'o', '̀'), ('ù', 'u', '̀'),
   ('ä', 'a', '̈'), ('ë', 'e', '̈'), ('ï', 'i', '̈'),
   ('ö', 'o', '̈'), ('ü', 'u', '̈'),
   ('â', 'a', '̂'), ('ê', 'e', '̂'), ('î', 'i', '̂'),
   ('ô', 'o', '̂'), ('û', 'u', '̂'),
   ('ñ', 'n', '̃'), ('ã', 'a', '̃'), ('õ', 'o', '̃'),
   ('ç', 'c', '̧'),
   ('Á', 'A', '́'), ('É', 'E', '́'), ('Í', 'I', '́'),
   ('Ó', 'O', '́'), ('Ú', 'U', '́'),
   ('Ñ', 'N', '̃'), ('Ç', 'C', '̧')]

/-- Look up a character in the decomposition table. -/
def findDecomp : List (Char × Char × Char) → Char → Option (Char × Char)
  | [], _ => none
  | (a, b, m) :: rest, c => if c = a then some (b, m) else findDecomp rest c

/-- NFD decomposition of one character under the table model. -/
def nfd (c : Char) : List Char :=
  match findDecomp accentTable c with
  | some (b, m) => [b, m]
  | none => [c]

/-- The unaccented form of a character: its NFD base.  Characters not in the
table are their own unaccented form. -/
def deaccent (c : Char) : Char :=
  match findDecomp accentTable c with
  | some (b, _) => b
  | none => c

/-- One character's contribution to `normalize_for_matching`: decompose,
drop combining marks, lowercase. -/
def normChar (c : Char) : List Char :=
  ((nfd c).filter (fun d => !isCombiningMark d)).map Char.toLower

/-- `normalize_for_matching` on a character list: NFD-decompose, drop the
combining marks, lowercase.  (NFD of a string is the concatenation of the
per-character decompositions in this table model.) -/
def normList : List Char → List Char
  | [] => []
  | c :: rest => normChar c ++ normList rest

/-- `normalize_for_matching(text)` from `src/utils/web_scraper.py`:
decompose to NFD, drop category-`Mn` characters, lowercase. -/
def normalize_for_matching (s : String) : String := String.mk (normList s.data)

/-! ## Python string primitives -/

/-- Python `sub in s` membership on character lists: contiguous-substring test.
The empty list is a substring of every list, as in Python. -/
def isSubstring (sub : List Char) : List Char → Bool
  | [] => sub.isEmpty
  | c :: rest => sub.isPrefixOf (c :: rest) || isSubstring sub rest

/-- Python `sub in s` on strings. -/
def strIn (sub s : String) : Bool := isSubstring sub.data s.data

/-- Python `str.strip()` on a character list: drop leading and trailing
whitespace. -/
def pyStripList (l : List Char) : List Char :=
  ((l.dropWhile Char.isWhitespace).reverse.dropWhile Char.isWhitespace).reverse

/-- Python `str.strip()` on strings. -/
def pyStrip (s : String) : String := String.mk (pyStripList s.data)

/-- The character class `[\s\-,.]` of the `re.split` in `quick_name_check`. -/
def isSplitChar (c : Char) : Bool :=
  c.isWhitespace || c = '-' || c = ',' || c = '.'

/-- `re.split(r'[\s\-,.]', name)` on a character list: split at every single
occurrence of a splitting character, keeping empty pieces (as `re.split` does).
`acc` holds the current piece reversed. -/
def splitCore : List Char → List Char → List (List Char)
  | [], acc => [acc.reverse]
  | c :: rest, acc =>
    if isSplitChar c then acc.reverse :: splitCore rest []
    else splitCore rest (c :: acc)

/-- `[part.strip() for part in re.split(r'[\s\-,.]', name) if part.strip()]`:
the nonempty stripped pieces of the name. -/
def nameParts (name : String) : List (List Char) :=
  ((splitCore name.data []).map pyStripList).filter (fun p => !p.isEmpty)

/-! ## `quick_name_check` (the Local Name Matcher) -/

/-- `quick_name_check(name, article_text)` from `src/utils/web_scraper.py`.
Returns `("exact", true)`, `("partial", true)` or `("none", false)` exactly as
the source does. -/
def quick_name_check (name article_text : String) : String × Bool :=
  if name = "" ∨ article_text = "" then ("none", false)
  else
    let article_normalized := normalize_for_matching article_text
    let name_normalized := normalize_for_matching name
    if strIn name_normalized article_normalized then ("exact", true)
    else
      let name_parts_normalized := (nameParts name).map (fun p => normList p)
      let significant_parts := name_parts_normalized.filter (fun p => 3 ≤ p.length)
      let significant_parts :=
        if significant_parts.isEmpty then name_parts_normalized else significant_parts
      let parts_found :=
        (significant_parts.filter (fun p => isSubstring p article_normalized.data)).length
      let min_required := min 2 significant_parts.length
      if min_required ≤ parts_found then ("partial", true) else ("none", false)

example : quick_name_check "Jane Doe" "Jane Doe, 45, was honored" = ("exact", true) := by decide
example : quick_name_check "Jane Doe" "jane x doe" = ("partial", true) := by decide
example : quick_name_check "Jane Doe" "nothing here" = ("none", false) := by decide
example : quick_name_check "José García" "garcia stood with jose" = ("partial", true) := by decide
example : quick_name_check "" "anything" = ("none", false) := by decide
example : quick_name_check " " "" = ("none", false) := by decide

/-! ## `is_url` and `fetch_article_text` -/

/-- `is_url(text)` from `src/utils/web_scraper.py`: the stripped, lowercased
input starts with one of `http://`, `https://`, `www.`. -/
def is_url (text : String) : Bool :=
  let t := (pyStripList text.data).map Char.toLower
  "http://".data.isPrefixOf t || "https://".data.isPrefixOf t || "www.".data.isPrefixOf t

/-- The result of a successful HTTP fetch, after HTML parsing: the texts of the
`<p>` elements and the full page text (`soup.get_text()`).  The HTTP request and
the HTML parsing are external collaborators; a transport failure is `.error`
with the exception text. -/
structure FetchedPage where
  paragraphs : List String
  fullText : String

/-- `fetch_article_text(url_or_text)` from `src/utils/web_scraper.py`, with the
outcome of the HTTP request passed in as `http`.  Non-URL input is returned
stripped; a request failure becomes the inline error payload; a success joins
the paragraph texts (falling back to the full page text when they are blank)
and strips blank lines. -/
def fetch_article_text (http : Except String FetchedPage) (url_or_text : String) : String :=
  if !is_url url_or_text then pyStrip url_or_text
  else
    match http with
    | .error e => "Error: Could not fetch article. " ++ e
    | .ok page =>
      let article_text := "\n".intercalate page.paragraphs
      let article_text := if pyStrip article_text = "" then page.fullText else article_text
      "\n".intercalate (((article_text.splitOn "\n").map pyStrip).filter (fun l => l ≠ ""))

example : fetch_article_text (.error "boom") "  plain text  " = "plain text" := rfl
example : fetch_article_text (.error "boom") "https://x.y" =
    "Error: Could not fetch article. boom" := rfl

/-! ## The oracle client: `call_llm_with_retry` -/

/-- Token usage counters extracted from one oracle response. -/
structure Usage where
  prompt_tokens : Nat
  completion_tokens : Nat
  total_tokens : Nat
deriving Repr, DecidableEq

/-- What one attempted oracle call does: succeed with a response text and usage
counters, or raise with an error message. -/
inductive Attempt where
  | ok (text : String) (usage : Usage)
  | fail (msg : String)
deriving Repr, DecidableEq

/-- The rate-limit classification in `call_llm_with_retry`:
`"429" in msg or "quota" in msg.lower() or "rate" in msg.lower()`. -/
def isRateLimitError (msg : String) : Bool :=
  strIn "429" msg ||
  strIn "quota" (String.mk (msg.data.map Char.toLower)) ||
  strIn "rate" (String.mk (msg.data.map Char.toLower))

/-- A blocking wait performed by the oracle client: an exponential-backoff
sleep before a retry, or the fixed inter-call sleep after a success. -/
inductive SleepEvent where
  | backoff (d : ℚ)
  | interCall (d : ℚ)
deriving Repr, DecidableEq

/-- The `for attempt in range(max_retries)` loop of `call_llm_with_retry`,
with the behaviour of attempt number `attempt` given by `script`.  `fuel` is
the number of loop iterations left (`max_retries - attempt`).  Returns the
result (`.ok` response or `.error` exception text) and the sequence of
blocking waits performed. -/
def retryLoop (script : Nat → Attempt) (max_retries : Nat) (inter_call_delay : ℚ) :
    Nat → Nat → ℚ → Except String (String × Usage) × List SleepEvent
  | 0, _, _ =>
    (.error ("Failed after " ++ toString max_retries ++ " attempts"), [])
  | fuel + 1, attempt, delay =>
    match script attempt with
    | .ok text usage => (.ok (text, usage), [.interCall inter_call_delay])
    | .fail msg =>
      if isRateLimitError msg then
        if attempt < max_retries - 1 then
          let rest := retryLoop script max_retries inter_call_delay fuel (attempt + 1) (delay * 2)
          (rest.1, .backoff delay :: rest.2)
        else
          (.error ("Rate limit exceeded after " ++ toString max_retries ++ " attempts: " ++ msg),
           [])
      else (.error msg, [])

/-- `call_llm_with_retry(prompt, max_retries, initial_delay, inter_call_delay)`
from `src/graph/nodes.py`, with the oracle's behaviour on each attempt given by
`script`.  The source defaults are `max_retries = 5`, `initial_delay = 3.0`,
`inter_call_delay = 2.0`. -/
def call_llm_with_retry (script : Nat → Attempt) (max_retries : Nat)
    (initial_delay inter_call_delay : ℚ) : Except String (String × Usage) × List SleepEvent :=
  retryLoop script max_retries inter_call_delay max_retries 0 initial_delay

example :
    call_llm_with_retry (fun _ => .fail "time out") 5 3 2 = (.error "time out", []) := rfl

/-- `quick_name_check` only ever returns the confidence levels `"exact"`,
`"partial"` and `"none"`. -/
lemma quick_name_check_fst_cases (n a : String) :
    (quick_name_check n a).1 = "exact" ∨ (quick_name_check n a).1 = "partial" ∨
    (quick_name_check n a).1 = "none" := by
  unfold quick_name_check
  by_cases h1 : n = "" ∨ a = ""
  · simp [h1]
  · rw [if_neg h1]
    dsimp only
    split
    · simp
    · split <;> (split <;> simp)

/-! ## Graph state and node functions (`src/graph/state.py`, `src/graph/nodes.py`)

Each decision node's oracle interaction is passed in as an `Except String
(String × Usage)` (the outcome of `call_llm_with_retry`: an exception text, or
a response text with usage counters) together with the JSON decoding function
(`json.loads` plus key extraction) applied to the cleaned response text.  The
nodes return the merged state (LangGraph merges the returned partial dict into
the state) and the number of oracle calls the node performed. -/

/-- The `GraphState` `TypedDict` of `src/graph/state.py`.  The `Literal` string
fields are plain strings, as in Python; `token_usage` is an insertion-ordered
mapping from node name to usage counters. -/
structure GraphState where
  applicant_name : String
  applicant_dob : String
  article_url : String
  article_text : String
  name_is_present : Bool
  name_check_explanation : String
  age_matches : Bool
  age_check_explanation : String
  match_decision : String
  match_explanation : String
  sentiment : String
  sentiment_explanation : String
  token_usage : List (String × Usage)
deriving Repr, DecidableEq

/-- Python dict assignment `d[key] = u`: replace the value in place if the key
exists, append otherwise (dicts preserve insertion order). -/
def updateUsage (tu : List (String × Usage)) (key : String) (u : Usage) :
    List (String × Usage) :=
  if tu.any (fun kv => kv.1 = key) then
    tu.map (fun kv => if kv.1 = key then (key, u) else kv)
  else tu ++ [(key, u)]

/-- The JSON object expected from the name-presence oracle:
keys `name_is_present` and `explanation`, each possibly missing. -/
structure NameData where
  name_is_present : Option Bool
  explanation : Option String

/-- The JSON object expected from the age-verification oracle. -/
structure AgeData where
  age_matches : Option Bool
  explanation : Option String

/-- The JSON object expected from the detail-verification oracle. -/
structure DetailsData where
  decision : Option String
  explanation : Option String

/-- The JSON object expected from the sentiment oracle. -/
structure SentimentData where
  sentiment : Option String
  explanation : Option String

/-- `response_text.strip().lstrip('```json').rstrip('```').strip()`: Python
`lstrip`/`rstrip` with a string argument strip any leading/trailing characters
drawn from that set. -/
def cleanResponse (s : String) : String :=
  let stripped := pyStripList s.data
  let l := stripped.dropWhile (fun c => ['`', 'j', 's', 'o', 'n'].contains c)
  let r := (l.reverse.dropWhile (fun c => c = '`')).reverse
  String.mk (pyStripList r)

/-- `f"LLM call or JSON parsing failed: {e}. <node-specific tail>"`, the
rationale emitted by every node's exception handler. -/
def llmFailMsg (e tail : String) : String :=
  "LLM call or JSON parsing failed: " ++ e ++ ". " ++ tail

/-- `fetch_article_node` from `src/graph/nodes.py`. -/
def fetch_article_node (http : Except String FetchedPage) (state : GraphState) : GraphState :=
  { state with article_text := fetch_article_text http state.article_url }

/-- `check_name_presence_node` from `src/graph/nodes.py`: branch on the
`quick_name_check` confidence; only the `partial` branch calls the oracle, and
any exception from the call or the JSON decoding is caught and converted to
`name_is_present = false` with a rationale naming the failure.  The second
component counts the oracle calls made. -/
def check_name_presence_node (call : Except String (String × Usage))
    (parseName : String → Except String NameData) (state : GraphState) : GraphState × Nat :=
  let qc := quick_name_check state.applicant_name state.article_text
  if qc.1 = "exact" then
    ({ state with
        name_is_present := true,
        name_check_explanation := "Exact match: " ++ state.applicant_name ++
          " found directly in article text via regex. LLM call skipped for efficiency." }, 0)
  else if qc.1 = "none" then
    ({ state with
        name_is_present := false,
        name_check_explanation := "No match: " ++ state.applicant_name ++
          " or significant name parts not found in article. LLM call skipped for efficiency." },
     0)
  else
    match call with
    | .error e =>
      ({ state with
          name_is_present := false,
          name_check_explanation := llmFailMsg e "Defaulting to name not present." }, 1)
    | .ok (response_text, usage) =>
      match parseName (cleanResponse response_text) with
      | .error e =>
        ({ state with
            name_is_present := false,
            name_check_explanation := llmFailMsg e "Defaulting to name not present." }, 1)
      | .ok data =>
        ({ state with
            name_is_present := data.name_is_present.getD false,
            name_check_explanation := data.explanation.getD "Error in parsing response.",
            token_usage := updateUsage state.token_usage "check_name_presence" usage }, 1)

/-- `verify_age_node` from `src/graph/nodes.py`: always calls the oracle; a
call or decoding failure defaults to `age_matches = true` (benefit of the
doubt). -/
def verify_age_node (call : Except String (String × Usage))
    (parseAge : String → Except String AgeData) (state : GraphState) : GraphState × Nat :=
  match call with
  | .error e =>
    ({ state with
        age_matches := true,
        age_check_explanation := llmFailMsg e "Defaulting to age matches." }, 1)
  | .ok (response_text, usage) =>
    match parseAge (cleanResponse response_text) with
    | .error e =>
      ({ state with
          age_matches := true,
          age_check_explanation := llmFailMsg e "Defaulting to age matches." }, 1)
    | .ok data =>
      ({ state with
          age_matches := data.age_matches.getD true,
          age_check_explanation := data.explanation.getD "Error in parsing response.",
          token_usage := updateUsage state.token_usage "verify_age" usage }, 1)

/-- `set_age_mismatch_node` from `src/graph/nodes.py`. -/
def set_age_mismatch_node (state : GraphState) : GraphState :=
  { state with
      match_decision := "Age Mismatch - Needs Verification",
      match_explanation := state.age_check_explanation }

/-- `verify_details_node` from `src/graph/nodes.py`: a call or decoding
failure defaults to `match_decision = "Review Required"`. -/
def verify_details_node (call : Except String (String × Usage))
    (parseDetails : String → Except String DetailsData) (state : GraphState) : GraphState × Nat :=
  match call with
  | .error e =>
    ({ state with
        match_decision := "Review Required",
        match_explanation := llmFailMsg e "Manual review needed." }, 1)
  | .ok (response_text, usage) =>
    match parseDetails (cleanResponse response_text) with
    | .error e =>
      ({ state with
          match_decision := "Review Required",
          match_explanation := llmFailMsg e "Manual review needed." }, 1)
    | .ok data =>
      ({ state with
          match_decision := data.decision.getD "Review Required",
          match_explanation := data.explanation.getD "Error in parsing response.",
          token_usage := updateUsage state.token_usage "verify_details" usage }, 1)

/-- `set_name_non_match_node` from `src/graph/nodes.py`. -/
def set_name_non_match_node (state : GraphState) : GraphState :=
  { state with
      match_decision := "Non-Match",
      match_explanation := state.name_check_explanation }

/-- `assess_sentiment_node` from `src/graph/nodes.py`: a call or decoding
failure defaults to `sentiment = "Neutral"`. -/
def assess_sentiment_node (call : Except String (String × Usage))
    (parseSentiment : String → Except String SentimentData) (state : GraphState) :
    GraphState × Nat :=
  match call with
  | .error e =>
    ({ state with
        sentiment := "Neutral",
        sentiment_explanation := llmFailMsg e "Defaulting to Neutral." }, 1)
  | .ok (response_text, usage) =>
    match parseSentiment (cleanResponse response_text) with
    | .error e =>
      ({ state with
          sentiment := "Neutral",
          sentiment_explanation := llmFailMsg e "Defaulting to Neutral." }, 1)
    | .ok data =>
      ({ state with
          sentiment := data.sentiment.getD "Neutral",
          sentiment_explanation := data.explanation.getD "Error in parsing response.",
          token_usage := updateUsage state.token_usage "assess_sentiment" usage }, 1)

/-! ## Routing (`src/graph/edges.py`) -/

/-- `should_verify_age`: route after the name check. -/
def should_verify_age (state : GraphState) : String :=
  if state.name_is_present then "verify_age" else "set_non_match"

/-- `should_verify_details`: route after the age check. -/
def should_verify_details (state : GraphState) : String :=
  if state.age_matches then "verify_details" else "set_age_mismatch"

/-- `should_assess_sentiment`: route after the detail check. -/
def should_assess_sentiment (state : GraphState) : String :=
  if state.match_decision = "Match" ∨ state.match_decision = "Review Required" then
    "assess_sentiment"
  else "end"

/-! ## The compiled workflow (`src/graph/workflow.py`) -/

/-- The external behaviour one run of the workflow is exposed to: the HTTP
outcome of the fetch and, for each oracle-backed node, the outcome of its
oracle call and its JSON decoding function. -/
structure Oracles where
  nameCall : Except String (String × Usage)
  parseName : String → Except String NameData
  ageCall : Except String (String × Usage)
  parseAge : String → Except String AgeData
  detailsCall : Except String (String × Usage)
  parseDetails : String → Except String DetailsData
  sentimentCall : Except String (String × Usage)
  parseSentiment : String → Except String SentimentData

/-- One full run of the graph built by `build_graph` in
`src/graph/workflow.py`: `fetch_article` → `check_name_presence` → conditional
edges exactly as wired there.  Returns the final state and the list of executed
node names in order. -/
def runWorkflow (http : Except String FetchedPage) (o : Oracles) (init : GraphState) :
    GraphState × List String :=
  let s1 := fetch_article_node http init
  let s2 := (check_name_presence_node o.nameCall o.parseName s1).1
  if should_verify_age s2 = "verify_age" then
    let s3 := (verify_age_node o.ageCall o.parseAge s2).1
    if should_verify_details s3 = "verify_details" then
      let s4 := (verify_details_node o.detailsCall o.parseDetails s3).1
      if should_assess_sentiment s4 = "assess_sentiment" then
        let s5 := (assess_sentiment_node o.sentimentCall o.parseSentiment s4).1
        (s5, ["fetch_article", "check_name_presence", "verify_age", "verify_details",
              "assess_sentiment"])
      else
        (s4, ["fetch_article", "check_name_presence", "verify_age", "verify_details"])
    else
      (set_age_mismatch_node s3,
       ["fetch_article", "check_name_presence", "verify_age", "set_age_mismatch"])
  else
    (set_name_non_match_node s2,
     ["fetch_article", "check_name_presence", "set_name_non_match"])

/-- The initial state the case runner (`evaluate_accuracy.py`) seeds a run
with, for a given case. -/
def initState (name dob source : String) : GraphState :=
  { applicant_name := name
    applicant_dob := dob
    article_url := source
    article_text := ""
    name_is_present := false
    name_check_explanation := ""
    age_matches := false
    age_check_explanation := ""
    match_decision := "Review Required"
    match_explanation := ""
    sentiment := "N/A"
    sentiment_explanation := ""
    token_usage := [] }

/-! ## Helper lemmas -/

/-- A string is the empty string exactly when its character list is empty. -/
lemma string_eq_empty_iff (s : String) : s = "" ↔ s.data = [] :=
  ⟨fun h => by rw [h], fun h => congrArg String.mk h⟩

/-- The empty list is a substring of every list (Python: `"" in s` is `True`). -/
lemma isSubstring_nil (l : List Char) : isSubstring [] l = true := by
  cases l <;> simp [isSubstring, List.isPrefixOf]

/-! ## Claim C10 -/

/-- Claim C10: when the name or the article text is the empty string,
`quick_name_check` returns `("none", false)` from its initial guard, even
though the empty string is a substring of every text. -/
theorem c10_empty_inputs_none (N A : String) (h : N = "" ∨ A = "") :
    quick_name_check N A = ("none", false) := by
  unfold quick_name_check
  rcases h with h | h <;> simp [h]

/-- Witness for C10 at the concrete inputs `("", "some article")` and
`("Jane", "")`. -/
theorem c10_witness :
    quick_name_check "" "some article" = ("none", false) ∧
    quick_name_check "Jane" "" = ("none", false) :=
  ⟨c10_empty_inputs_none "" "some article" (Or.inl rfl),
   c10_empty_inputs_none "Jane" "" (Or.inr rfl)⟩

/-! ## Claim C9 -/

/-- Claim C9: `fetch_article_text` treats non-URL input (input that, after
trimming, does not start case-insensitively with `http://`, `https://` or
`www.`) as literal article text and returns it trimmed; on a URL whose HTTP
request fails it returns — rather than raises — a payload beginning with
`"Error: Could not fetch article."`. -/
theorem c9_fetch_article_text (src e : String) (http : Except String FetchedPage) :
    (is_url src = false → fetch_article_text http src = pyStrip src) ∧
    (is_url src = true →
      fetch_article_text (.error e) src = "Error: Could not fetch article. " ++ e ∧
      ∃ rest, fetch_article_text (.error e) src = "Error: Could not fetch article." ++ rest) := by
  constructor
  · intro h
    unfold fetch_article_text
    simp [h]
  · intro h
    have heq : fetch_article_text (.error e) src = "Error: Could not fetch article. " ++ e := by
      unfold fetch_article_text
      simp [h]
    refine ⟨heq, " " ++ e, ?_⟩
    rw [heq, ← String.append_assoc]
    rfl

/-- Witness for C9: the non-URL branch at `"  plain text  "` and the failing
URL branch at `"https://example.com"` with transport error `"timeout"`. -/
theorem c9_witness :
    fetch_article_text (.error "timeout") "  plain text  " = pyStrip "  plain text  " ∧
    fetch_article_text (.error "timeout") "https://example.com" =
      "Error: Could not fetch article. " ++ "timeout" :=
  ⟨(c9_fetch_article_text "  plain text  " "timeout" (.error "timeout")).1 (by decide),
   ((c9_fetch_article_text "https://example.com" "timeout" (.error "timeout")).2 (by decide)).1⟩

/-! ## Claim C4 -/

/-- Counterexample to C4 as stated: for the empty name, the normalized name is
a substring of every normalized article, yet `quick_name_check` returns
`("none", false)` from its initial guard instead of `("exact", true)`. -/
theorem c4_counterexample :
    strIn (normalize_for_matching "") (normalize_for_matching "a") = true ∧
    quick_name_check "" "a" ≠ ("exact", true) := by decide

/-- Claim C4 (amended): for nonempty `N` and nonempty `A`, if the normalized
form of `N` is a substring of the normalized form of `A`, then
`quick_name_check N A` returns the `Exact` classification. -/
theorem c4_exact_substring_amended (N A : String) (hN : N ≠ "") (hA : A ≠ "")
    (h : strIn (normalize_for_matching N) (normalize_for_matching A) = true) :
    quick_name_check N A = ("exact", true) := by
  unfold quick_name_check
  rw [if_neg (by simp [hN, hA])]
  simp [h]

/-- Witness for C4 at `N = "ab"`, `A = "zaby"`. -/
theorem c4_witness : quick_name_check "ab" "zaby" = ("exact", true) :=
  c4_exact_substring_amended "ab" "zaby" (by decide) (by decide) (by decide)

/-! ## Claim C6 -/

/-- Claim C6: with an oracle that fails with rate-limit-classified errors on
its first four attempts and succeeds on the fifth, `call_llm_with_retry`
(with the source's attempt ceiling of 5) returns the fifth attempt's result
after exactly four backoff waits of `d, 2d, 4d, 8d` seconds (`d` the initial
delay), followed only by the fixed inter-call sleep of the successful call;
and on a non-rate-limit failure it fails immediately with no retry and no
backoff wait. -/
theorem c6_retry_backoff (d ic : ℚ) (m1 m2 m3 m4 text : String) (u : Usage)
    (h1 : isRateLimitError m1 = true) (h2 : isRateLimitError m2 = true)
    (h3 : isRateLimitError m3 = true) (h4 : isRateLimitError m4 = true) :
    (call_llm_with_retry
        (fun n =>
          match n with
          | 0 => .fail m1
          | 1 => .fail m2
          | 2 => .fail m3
          | 3 => .fail m4
          | _ => .ok text u)
        5 d ic =
      (.ok (text, u),
       [.backoff d, .backoff (2 * d), .backoff (4 * d), .backoff (8 * d), .interCall ic])) ∧
    (∀ (script : Nat → Attempt) (msg : String), isRateLimitError msg = false →
      script 0 = .fail msg → call_llm_with_retry script 5 d ic = (.error msg, [])) := by
  constructor
  · simp [call_llm_with_retry, retryLoop, h1, h2, h3, h4]
    refine ⟨by ring, by ring, by ring⟩
  · intro script msg h hs
    simp [call_llm_with_retry, retryLoop, hs, h]

/-- Witness for C6: four `"429"` failures then success, with the source's
default delays `d = 3`, `ic = 2`; and an immediate `"invalid api key"`
failure. -/
theorem c6_witness :
    (call_llm_with_retry
        (fun n =>
          match n with
          | 0 => .fail "429"
          | 1 => .fail "429"
          | 2 => .fail "429"
          | 3 => .fail "429"
          | _ => .ok "all good" ⟨7, 8, 15⟩)
        5 3 2 =
      (.ok ("all good", ⟨7, 8, 15⟩),
       [.backoff 3, .backoff (2 * 3), .backoff (4 * 3), .backoff (8 * 3), .interCall 2])) ∧
    (call_llm_with_retry (fun _ => .fail "invalid api key") 5 3 2 =
      (.error "invalid api key", [])) :=
  ⟨(c6_retry_backoff 3 2 "429" "429" "429" "429" "all good" ⟨7, 8, 15⟩
      (by decide) (by decide) (by decide) (by decide)).1,
   (c6_retry_backoff 3 2 "429" "429" "429" "429" "all good" ⟨7, 8, 15⟩
      (by decide) (by decide) (by decide) (by decide)).2
     (fun _ => .fail "invalid api key") "invalid api key" (by decide) rfl⟩

/-! ## Claim C1 -/

/-- Claim C1: `check_name_presence_node` invokes the oracle if and only if the
local matcher returns `partial`.  On `none` it performs no oracle call, its
result does not depend on the oracle at all, it sets `name_is_present = false`,
and `should_verify_age` routes to `set_non_match`; on `exact` it performs no
oracle call, its result does not depend on the oracle, it sets
`name_is_present = true`, and routing goes to `verify_age`. -/
theorem c1_oracle_gating (call : Except String (String × Usage))
    (parse : String → Except String NameData) (s : GraphState) :
    ((quick_name_check s.applicant_name s.article_text).1 = "none" →
      (check_name_presence_node call parse s).2 = 0 ∧
      (check_name_presence_node call parse s).1.name_is_present = false ∧
      should_verify_age (check_name_presence_node call parse s).1 = "set_non_match" ∧
      ∀ call2 parse2,
        check_name_presence_node call2 parse2 s = check_name_presence_node call parse s) ∧
    ((quick_name_check s.applicant_name s.article_text).1 = "exact" →
      (check_name_presence_node call parse s).2 = 0 ∧
      (check_name_presence_node call parse s).1.name_is_present = true ∧
      should_verify_age (check_name_presence_node call parse s).1 = "verify_age" ∧
      ∀ call2 parse2,
        check_name_presence_node call2 parse2 s = check_name_presence_node call parse s) ∧
    ((check_name_presence_node call parse s).2 = 1 ↔
      (quick_name_check s.applicant_name s.article_text).1 = "partial") := by
  refine ⟨?_, ?_, ?_⟩
  · intro h
    unfold check_name_presence_node
    refine ⟨?_, ?_, ?_, ?_⟩ <;> simp [h, should_verify_age]
  · intro h
    unfold check_name_presence_node
    refine ⟨?_, ?_, ?_, ?_⟩ <;> simp [h, should_verify_age]
  · rcases quick_name_check_fst_cases s.applicant_name s.article_text with h | h | h <;>
      unfold check_name_presence_node <;> simp [h]
    · rcases call with e | ru
      · simp
      · rcases hp : parse (cleanResponse ru.1) with e2 | data <;> simp [hp]

/-- Witness for C1: three concrete states (article lacking the name, article
containing the name exactly, article containing only separate name parts),
with a fixed oracle outcome. -/
theorem c1_witness :
    ((check_name_presence_node (.error "x") (fun _ => .error "x")
        { initState "Jane Doe" "01/01/1980" "u" with article_text := "no relevant people" }).2 =
          0 ∧
      (check_name_presence_node (.error "x") (fun _ => .error "x")
        { initState "Jane Doe" "01/01/1980" "u" with
            article_text := "no relevant people" }).1.name_is_present = false ∧
      should_verify_age
        (check_name_presence_node (.error "x") (fun _ => .error "x")
          { initState "Jane Doe" "01/01/1980" "u" with
              article_text := "no relevant people" }).1 = "set_non_match" ∧
      ∀ call2 parse2,
        check_name_presence_node call2 parse2
            { initState "Jane Doe" "01/01/1980" "u" with article_text := "no relevant people" } =
          check_name_presence_node (.error "x") (fun _ => .error "x")
            { initState "Jane Doe" "01/01/1980" "u" with
                article_text := "no relevant people" }) ∧
    ((check_name_presence_node (.error "x") (fun _ => .error "x")
        { initState "Jane Doe" "01/01/1980" "u" with article_text := "Jane Doe, 45, honored" }).2 =
        0) ∧
    ((check_name_presence_node (.error "x") (fun _ => .error "x")
        { initState "Jane Doe" "01/01/1980" "u" with article_text := "jane x doe" }).2 = 1) := by
  refine ⟨?_, ?_, ?_⟩
  · exact (c1_oracle_gating (.error "x") (fun _ => .error "x")
      { initState "Jane Doe" "01/01/1980" "u" with article_text := "no relevant people" }).1
      (by decide)
  · exact ((c1_oracle_gating (.error "x") (fun _ => .error "x")
      { initState "Jane Doe" "01/01/1980" "u" with article_text := "Jane Doe, 45, honored" }).2.1
      (by decide)).1
  · exact ((c1_oracle_gating (.error "x") (fun _ => .error "x")
      { initState "Jane Doe" "01/01/1980" "u" with article_text := "jane x doe" }).2.2).2
      (by decide)

/-! ## Claim C3 -/

/-- Claim C3: every oracle-backed node catches oracle-call failures and
response-decoding failures and converts them into its documented safe default
together with a rationale naming the failure: `name_is_present = false`,
`age_matches = true`, `match_decision = "Review Required"`,
`sentiment = "Neutral"`.  The node functions are total (no exception escapes a
node into the state machine); the name node only reaches its oracle branch on
`partial` confidence. -/
theorem c3_failure_defaults (s : GraphState) (e r : String) (u : Usage)
    (pn : String → Except String NameData) (pa : String → Except String AgeData)
    (pd : String → Except String DetailsData) (ps : String → Except String SentimentData) :
    ((quick_name_check s.applicant_name s.article_text).1 = "partial" →
      ((check_name_presence_node (.error e) pn s).1.name_is_present = false ∧
        (check_name_presence_node (.error e) pn s).1.name_check_explanation =
          llmFailMsg e "Defaulting to name not present.") ∧
      (pn (cleanResponse r) = .error e →
        (check_name_presence_node (.ok (r, u)) pn s).1.name_is_present = false ∧
        (check_name_presence_node (.ok (r, u)) pn s).1.name_check_explanation =
          llmFailMsg e "Defaulting to name not present.")) ∧
    ((verify_age_node (.error e) pa s).1.age_matches = true ∧
      (verify_age_node (.error e) pa s).1.age_check_explanation =
        llmFailMsg e "Defaulting to age matches.") ∧
    (pa (cleanResponse r) = .error e →
      (verify_age_node (.ok (r, u)) pa s).1.age_matches = true ∧
      (verify_age_node (.ok (r, u)) pa s).1.age_check_explanation =
        llmFailMsg e "Defaulting to age matches.") ∧
    ((verify_details_node (.error e) pd s).1.match_decision = "Review Required" ∧
      (verify_details_node (.error e) pd s).1.match_explanation =
        llmFailMsg e "Manual review needed.") ∧
    (pd (cleanResponse r) = .error e →
      (verify_details_node (.ok (r, u)) pd s).1.match_decision = "Review Required" ∧
      (verify_details_node (.ok (r, u)) pd s).1.match_explanation =
        llmFailMsg e "Manual review needed.") ∧
    ((assess_sentiment_node (.error e) ps s).1.sentiment = "Neutral" ∧
      (assess_sentiment_node (.error e) ps s).1.sentiment_explanation =
        llmFailMsg e "Defaulting to Neutral.") ∧
    (ps (cleanResponse r) = .error e →
      (assess_sentiment_node (.ok (r, u)) ps s).1.sentiment = "Neutral" ∧
      (assess_sentiment_node (.ok (r, u)) ps s).1.sentiment_explanation =
        llmFailMsg e "Defaulting to Neutral.") := by
  refine ⟨?_, ⟨rfl, rfl⟩, ?_, ⟨rfl, rfl⟩, ?_, ⟨rfl, rfl⟩, ?_⟩
  · intro h
    unfold check_name_presence_node
    refine ⟨by simp [h], ?_⟩
    intro hp
    simp [h, hp]
  · intro hp
    unfold verify_age_node
    simp [hp]
  · intro hp
    unfold verify_details_node
    simp [hp]
  · intro hp
    unfold assess_sentiment_node
    simp [hp]

/-- Witness for C3 at a concrete state with `partial` confidence, error text
`"boom"`, unparseable response `"junk"`, and a decoder that always fails. -/
theorem c3_witness :
    ((check_name_presence_node (.error "boom") (fun _ => .error "boom")
        { initState "Jane Doe" "01/01/1980" "u" with
            article_text := "jane x doe" }).1.name_is_present = false ∧
      (check_name_presence_node (.error "boom") (fun _ => .error "boom")
        { initState "Jane Doe" "01/01/1980" "u" with
            article_text := "jane x doe" }).1.name_check_explanation =
        llmFailMsg "boom" "Defaulting to name not present.") ∧
    ((verify_age_node (.ok ("junk", ⟨1, 2, 3⟩)) (fun _ => .error "boom")
        { initState "Jane Doe" "01/01/1980" "u" with
            article_text := "jane x doe" }).1.age_matches = true) ∧
    ((verify_details_node (.error "boom") (fun _ => .error "boom")
        { initState "Jane Doe" "01/01/1980" "u" with
            article_text := "jane x doe" }).1.match_decision = "Review Required") ∧
    ((assess_sentiment_node (.ok ("junk", ⟨1, 2, 3⟩)) (fun _ => .error "boom")
        { initState "Jane Doe" "01/01/1980" "u" with
            article_text := "jane x doe" }).1.sentiment = "Neutral") := by
  have h := c3_failure_defaults
    { initState "Jane Doe" "01/01/1980" "u" with article_text := "jane x doe" }
    "boom" "junk" ⟨1, 2, 3⟩ (fun _ => .error "boom") (fun _ => .error "boom")
    (fun _ => .error "boom") (fun _ => .error "boom")
  exact ⟨(h.1 (by decide)).1, (h.2.2.1 rfl).1, h.2.2.2.1.1, (h.2.2.2.2.2.2 rfl).1⟩

/-! ## Claim C7 -/

/-- Counterexample to C7 as stated: a successful oracle call (the node made
exactly one call and its outcome is `.ok`) whose response fails to decode
leaves `token_usage` without any entry for the node, so "on a successful
oracle call the node records usage" is false in the code. -/
theorem c7_counterexample :
    (check_name_presence_node (.ok ("not json", ⟨1, 2, 3⟩))
        (fun _ => (.error "bad json" : Except String NameData))
        { initState "Jane Doe" "01/01/1980" "u" with article_text := "jane x doe" }).2 = 1 ∧
    (check_name_presence_node (.ok ("not json", ⟨1, 2, 3⟩))
        (fun _ => (.error "bad json" : Except String NameData))
        { initState "Jane Doe" "01/01/1980" "u" with
            article_text := "jane x doe" }).1.token_usage = [] := by decide

/-- Claim C7 (amended): an oracle-backed node records the call's usage
counters under its node name exactly when the oracle call succeeds and its
response decodes; on a skipped call (the `exact`/`none` cases of
`check_name_presence_node`), on a failed call, and on a successful call whose
response fails to decode, `token_usage` is left unchanged (in particular no
entry for the node is created). -/
theorem c7_usage_recording_amended (s : GraphState) (e r : String) (u : Usage)
    (nd : NameData) (ad : AgeData) (dd : DetailsData) (sd : SentimentData)
    (pn : String → Except String NameData) (pa : String → Except String AgeData)
    (pd : String → Except String DetailsData) (ps : String → Except String SentimentData) :
    ((quick_name_check s.applicant_name s.article_text).1 = "exact" →
      ∀ call, (check_name_presence_node call pn s).1.token_usage = s.token_usage) ∧
    ((quick_name_check s.applicant_name s.article_text).1 = "none" →
      ∀ call, (check_name_presence_node call pn s).1.token_usage = s.token_usage) ∧
    ((quick_name_check s.applicant_name s.article_text).1 = "partial" →
      (pn (cleanResponse r) = .ok nd →
        (check_name_presence_node (.ok (r, u)) pn s).1.token_usage =
          updateUsage s.token_usage "check_name_presence" u) ∧
      (check_name_presence_node (.error e) pn s).1.token_usage = s.token_usage ∧
      (pn (cleanResponse r) = .error e →
        (check_name_presence_node (.ok (r, u)) pn s).1.token_usage = s.token_usage)) ∧
    (pa (cleanResponse r) = .ok ad →
      (verify_age_node (.ok (r, u)) pa s).1.token_usage =
        updateUsage s.token_usage "verify_age" u) ∧
    (verify_age_node (.error e) pa s).1.token_usage = s.token_usage ∧
    (pa (cleanResponse r) = .error e →
      (verify_age_node (.ok (r, u)) pa s).1.token_usage = s.token_usage) ∧
    (pd (cleanResponse r) = .ok dd →
      (verify_details_node (.ok (r, u)) pd s).1.token_usage =
        updateUsage s.token_usage "verify_details" u) ∧
    (verify_details_node (.error e) pd s).1.token_usage = s.token_usage ∧
    (pd (cleanResponse r) = .error e →
      (verify_details_node (.ok (r, u)) pd s).1.token_usage = s.token_usage) ∧
    (ps (cleanResponse r) = .ok sd →
      (assess_sentiment_node (.ok (r, u)) ps s).1.token_usage =
        updateUsage s.token_usage "assess_sentiment" u) ∧
    (assess_sentiment_node (.error e) ps s).1.token_usage = s.token_usage ∧
    (ps (cleanResponse r) = .error e →
      (assess_sentiment_node (.ok (r, u)) ps s).1.token_usage = s.token_usage) := by
  refine ⟨?_, ?_, ?_, ?_, rfl, ?_, ?_, rfl, ?_, ?_, rfl, ?_⟩
  · intro h call
    unfold check_name_presence_node
    simp [h]
  · intro h call
    unfold check_name_presence_node
    simp [h]
  · intro h
    refine ⟨?_, ?_, ?_⟩
    · intro hp
      unfold check_name_presence_node
      simp [h, hp]
    · unfold check_name_presence_node
      simp [h]
    · intro hp
      unfold check_name_presence_node
      simp [h, hp]
  · intro hp
    unfold verify_age_node
    simp [hp]
  · intro hp
    unfold verify_age_node
    simp [hp]
  · intro hp
    unfold verify_details_node
    simp [hp]
  · intro hp
    unfold verify_details_node
    simp [hp]
  · intro hp
    unfold assess_sentiment_node
    simp [hp]
  · intro hp
    unfold assess_sentiment_node
    simp [hp]

/-- Witness for C7: a skipped call creates no entry; a successful decoded call
records the usage under the node name. -/
theorem c7_witness :
    (check_name_presence_node (.error "x") (fun _ => .error "x")
        { initState "Jane Doe" "01/01/1980" "u" with
            article_text := "Jane Doe, 45, honored" }).1.token_usage = [] ∧
    (verify_age_node (.ok ("resp", ⟨4, 5, 9⟩))
        (fun _ => (.ok ⟨some true, some "age fits"⟩ : Except String AgeData))
        { initState "Jane Doe" "01/01/1980" "u" with
            article_text := "Jane Doe, 45, honored" }).1.token_usage =
      updateUsage [] "verify_age" ⟨4, 5, 9⟩ := by
  have h := c7_usage_recording_amended
    { initState "Jane Doe" "01/01/1980" "u" with article_text := "Jane Doe, 45, honored" }
    "x" "resp" ⟨4, 5, 9⟩ ⟨some true, some "ok"⟩ ⟨some true, some "age fits"⟩
    ⟨some "Match", some "ok"⟩ ⟨some "Positive", some "ok"⟩
    (fun _ => .error "x") (fun _ => .ok ⟨some true, some "age fits"⟩)
    (fun _ => .error "x") (fun _ => .error "x")
  exact ⟨h.1 (by decide) (.error "x"), h.2.2.2.1 rfl⟩

/-! ## Claim C5 -/

/-- The spec's own description of the non-exact classification (claim C5),
written from the spec's words rather than from the code: split the name into
parts on whitespace/hyphen/comma/period; if every part is shorter than 3
characters keep all parts, otherwise keep only parts of length at least 3;
return `Partial` when at least `min(2, number of kept parts)` of the kept parts
occur as substrings of the normalized article, and `None` otherwise. -/
def spec_partial_classification (name article_text : String) : String × Bool :=
  let parts := (nameParts name).map (fun p => normList p)
  let kept :=
    if parts.all (fun p => p.length < 3) then parts
    else parts.filter (fun p => 3 ≤ p.length)
  let found :=
    (kept.filter (fun p => isSubstring p (normalize_for_matching article_text).data)).length
  if min 2 kept.length ≤ found then ("partial", true) else ("none", false)

/-- The code's fallback `if not significant_parts: significant_parts = name_parts_normalized`
coincides with the spec's "keep all parts when every part is shorter than 3". -/
lemma significant_parts_fallback (parts : List (List Char)) :
    (if (parts.filter (fun p => 3 ≤ p.length)).isEmpty then parts
     else parts.filter (fun p => 3 ≤ p.length)) =
    (if parts.all (fun p => p.length < 3) then parts
     else parts.filter (fun p => 3 ≤ p.length)) := by
  by_cases hc : (parts.filter (fun p => 3 ≤ p.length)).isEmpty
  · rw [if_pos hc, if_pos ?_]
    rw [List.isEmpty_iff, List.filter_eq_nil_iff] at hc
    rw [List.all_eq_true]
    intro p hp
    have := hc p hp
    simp at this ⊢
    omega
  · rw [if_neg hc, if_neg ?_]
    rw [List.isEmpty_iff, List.filter_eq_nil_iff] at hc
    rw [List.all_eq_true]
    intro hall
    apply hc
    intro p hp
    have := hall p hp
    simp at this ⊢
    omega

/-- Counterexample to C5 as stated: at name `" "` and the empty article, the
normalized name is not a substring of the normalized article, and the spec's
described part-counting classification yields `Partial` (no parts, threshold
`min(2, 0) = 0`), yet the code's initial guard returns `("none", false)`. -/
theorem c5_counterexample :
    strIn (normalize_for_matching " ") (normalize_for_matching "") = false ∧
    spec_partial_classification " " "" = ("partial", true) ∧
    quick_name_check " " "" = ("none", false) := by decide

/-- Claim C5 (amended): for every name `N` and nonempty article `A` whose
normalized full name is not a substring of the normalized article,
`quick_name_check` returns exactly the spec's part-counting classification:
`Partial` when at least `min(2, number of kept parts)` of the kept parts occur
in the normalized article, `None` otherwise. -/
theorem c5_partial_none_amended (N A : String) (hA : A ≠ "")
    (h : strIn (normalize_for_matching N) (normalize_for_matching A) = false) :
    quick_name_check N A = spec_partial_classification N A := by
  have hN : N ≠ "" := by
    intro hN0
    rw [hN0, show normalize_for_matching "" = "" from rfl] at h
    unfold strIn at h
    rw [show ("" : String).data = [] from rfl, isSubstring_nil] at h
    exact Bool.noConfusion h
  unfold quick_name_check spec_partial_classification
  rw [if_neg (by simp [hN, hA])]
  dsimp only
  rw [if_neg (by rw [h]; exact Bool.noConfusion)]
  rw [significant_parts_fallback ((nameParts N).map (fun p => normList p))]

/-- Witness for C5 at `N = "Jane Doe"`, `A = "jane x doe"` (both parts occur
separately, the full name does not). -/
theorem c5_witness :
    quick_name_check "Jane Doe" "jane x doe" =
      spec_partial_classification "Jane Doe" "jane x doe" :=
  c5_partial_none_amended "Jane Doe" "jane x doe" (by decide) (by decide)

/-! ## Claim C2 -/

/-- Claim C2: on any run in which `verify_age` executes and sets
`age_matches = false`, the final `match_decision` is
`"Age Mismatch - Needs Verification"`, the final `match_explanation` is the
run's `age_check_explanation`, and neither `verify_details` nor
`assess_sentiment` executes. -/
theorem c2_age_mismatch_terminal (http : Except String FetchedPage) (o : Oracles)
    (init : GraphState)
    (hrun : "verify_age" ∈ (runWorkflow http o init).2)
    (hage : ∀ s, ((verify_age_node o.ageCall o.parseAge s).1).age_matches = false) :
    (runWorkflow http o init).1.match_decision = "Age Mismatch - Needs Verification" ∧
    (runWorkflow http o init).1.match_explanation =
      (runWorkflow http o init).1.age_check_explanation ∧
    "verify_details" ∉ (runWorkflow http o init).2 ∧
    "assess_sentiment" ∉ (runWorkflow http o init).2 := by
  unfold runWorkflow at hrun ⊢
  dsimp only at hrun ⊢
  by_cases h2 : should_verify_age
      (check_name_presence_node o.nameCall o.parseName (fetch_article_node http init)).1 =
      "verify_age"
  · rw [if_pos h2]
    have h3 : should_verify_details
        ((verify_age_node o.ageCall o.parseAge
          (check_name_presence_node o.nameCall o.parseName (fetch_article_node http init)).1).1) =
        "set_age_mismatch" := by
      unfold should_verify_details
      rw [hage]
      rfl
    rw [if_neg (by rw [h3]; decide)]
    exact ⟨rfl, rfl, by dsimp only; decide, by dsimp only; decide⟩
  · rw [if_neg h2] at hrun
    exact absurd hrun (by dsimp only; decide)

/-- Witness for C2: an exact-match article (so `verify_age` runs without a
name-check oracle call) and an age oracle that reports a mismatch. -/
theorem c2_witness :
    (runWorkflow (.error "x")
        { nameCall := .error "x", parseName := fun _ => .error "x",
          ageCall := .ok ("resp", ⟨1, 1, 2⟩),
          parseAge := fun _ => .ok ⟨some false, some "article says age 30, DOB implies 45"⟩,
          detailsCall := .error "x", parseDetails := fun _ => .error "x",
          sentimentCall := .error "x", parseSentiment := fun _ => .error "x" }
        (initState "Jane Doe" "01/01/1980" "Jane Doe, 30, was seen")).1.match_decision =
      "Age Mismatch - Needs Verification" ∧
    (runWorkflow (.error "x")
        { nameCall := .error "x", parseName := fun _ => .error "x",
          ageCall := .ok ("resp", ⟨1, 1, 2⟩),
          parseAge := fun _ => .ok ⟨some false, some "article says age 30, DOB implies 45"⟩,
          detailsCall := .error "x", parseDetails := fun _ => .error "x",
          sentimentCall := .error "x", parseSentiment := fun _ => .error "x" }
        (initState "Jane Doe" "01/01/1980" "Jane Doe, 30, was seen")).1.match_explanation =
      (runWorkflow (.error "x")
        { nameCall := .error "x", parseName := fun _ => .error "x",
          ageCall := .ok ("resp", ⟨1, 1, 2⟩),
          parseAge := fun _ => .ok ⟨some false, some "article says age 30, DOB implies 45"⟩,
          detailsCall := .error "x", parseDetails := fun _ => .error "x",
          sentimentCall := .error "x", parseSentiment := fun _ => .error "x" }
        (initState "Jane Doe" "01/01/1980" "Jane Doe, 30, was seen")).1.age_check_explanation ∧
    "verify_details" ∉ (runWorkflow (.error "x")
        { nameCall := .error "x", parseName := fun _ => .error "x",
          ageCall := .ok ("resp", ⟨1, 1, 2⟩),
          parseAge := fun _ => .ok ⟨some false, some "article says age 30, DOB implies 45"⟩,
          detailsCall := .error "x", parseDetails := fun _ => .error "x",
          sentimentCall := .error "x", parseSentiment := fun _ => .error "x" }
        (initState "Jane Doe" "01/01/1980" "Jane Doe, 30, was seen")).2 ∧
    "assess_sentiment" ∉ (runWorkflow (.error "x")
        { nameCall := .error "x", parseName := fun _ => .error "x",
          ageCall := .ok ("resp", ⟨1, 1, 2⟩),
          parseAge := fun _ => .ok ⟨some false, some "article says age 30, DOB implies 45"⟩,
          detailsCall := .error "x", parseDetails := fun _ => .error "x",
          sentimentCall := .error "x", parseSentiment := fun _ => .error "x" }
        (initState "Jane Doe" "01/01/1980" "Jane Doe, 30, was seen")).2 :=
  c2_age_mismatch_terminal (.error "x")
    { nameCall := .error "x", parseName := fun _ => .error "x",
      ageCall := .ok ("resp", ⟨1, 1, 2⟩),
      parseAge := fun _ => .ok ⟨some false, some "article says age 30, DOB implies 45"⟩,
      detailsCall := .error "x", parseDetails := fun _ => .error "x",
      sentimentCall := .error "x", parseSentiment := fun _ => .error "x" }
    (initState "Jane Doe" "01/01/1980" "Jane Doe, 30, was seen")
    (by decide) (fun s => rfl)

/-! ## Claim C8: diacritic invariance

The classification of `quick_name_check` depends on the raw name only through
three per-character observations: whether a character splits the name
(`[\s\-,.]`), whether it is whitespace (for `str.strip`), and its contribution
to the normalized text.  Replacing an accented character by its unaccented form
preserves all three, so it cannot change the classification. -/

/-- Two characters are interchangeable for `quick_name_check`: same splitting
behaviour, same whitespace status, same normalized contribution. -/
def charEquivB (c₁ c₂ : Char) : Bool :=
  (isSplitChar c₁ == isSplitChar c₂) && (c₁.isWhitespace == c₂.isWhitespace) &&
    (normChar c₁ == normChar c₂)

/-- Pointwise `charEquivB` on character lists of equal length. -/
def listCharEquiv : List Char → List Char → Bool
  | [], [] => true
  | c₁ :: r₁, c₂ :: r₂ => charEquivB c₁ c₂ && listCharEquiv r₁ r₂
  | _, _ => false

/-- Pointwise `listCharEquiv` on lists of name parts. -/
def partsEquiv : List (List Char) → List (List Char) → Bool
  | [], [] => true
  | p :: ps, q :: qs => listCharEquiv p q && partsEquiv ps qs
  | _, _ => false

lemma charEquivB_split {c₁ c₂ : Char} (h : charEquivB c₁ c₂ = true) :
    isSplitChar c₁ = isSplitChar c₂ := by
  simp only [charEquivB, Bool.and_eq_true, beq_iff_eq] at h
  exact h.1.1

lemma charEquivB_ws {c₁ c₂ : Char} (h : charEquivB c₁ c₂ = true) :
    c₁.isWhitespace = c₂.isWhitespace := by
  simp only [charEquivB, Bool.and_eq_true, beq_iff_eq] at h
  exact h.1.2

lemma charEquivB_norm {c₁ c₂ : Char} (h : charEquivB c₁ c₂ = true) :
    normChar c₁ = normChar c₂ := by
  simp only [charEquivB, Bool.and_eq_true, beq_iff_eq] at h
  exact h.2

lemma charEquivB_refl (c : Char) : charEquivB c c = true := by
  simp [charEquivB]

lemma listCharEquiv_normList :
    ∀ {l₁ l₂ : List Char}, listCharEquiv l₁ l₂ = true → normList l₁ = normList l₂
  | [], [], _ => rfl
  | c₁ :: r₁, c₂ :: r₂, h => by
    simp only [listCharEquiv, Bool.and_eq_true] at h
    rw [normList, normList, charEquivB_norm h.1, listCharEquiv_normList h.2]
  | [], _ :: _, h => by simp [listCharEquiv] at h
  | _ :: _, [], h => by simp [listCharEquiv] at h

lemma listCharEquiv_isEmpty :
    ∀ {l₁ l₂ : List Char}, listCharEquiv l₁ l₂ = true → l₁.isEmpty = l₂.isEmpty
  | [], [], _ => rfl
  | _ :: _, _ :: _, _ => rfl
  | [], _ :: _, h => by simp [listCharEquiv] at h
  | _ :: _, [], h => by simp [listCharEquiv] at h

lemma listCharEquiv_length :
    ∀ {l₁ l₂ : List Char}, listCharEquiv l₁ l₂ = true → l₁.length = l₂.length
  | [], [], _ => rfl
  | _ :: r₁, _ :: r₂, h => by
    simp only [listCharEquiv, Bool.and_eq_true] at h
    simp [listCharEquiv_length h.2]
  | [], _ :: _, h => by simp [listCharEquiv] at h
  | _ :: _, [], h => by simp [listCharEquiv] at h

lemma listCharEquiv_append :
    ∀ {a b : List Char}, listCharEquiv a b = true →
      ∀ {c d : List Char}, listCharEquiv c d = true →
        listCharEquiv (a ++ c) (b ++ d) = true
  | [], [], _, _, _, hcd => hcd
  | x :: a, y :: b, hab, c, d, hcd => by
    simp only [listCharEquiv, Bool.and_eq_true] at hab
    simp only [List.cons_append, listCharEquiv, Bool.and_eq_true]
    exact ⟨hab.1, listCharEquiv_append hab.2 hcd⟩
  | [], _ :: _, h, _, _, _ => by simp [listCharEquiv] at h
  | _ :: _, [], h, _, _, _ => by simp [listCharEquiv] at h

lemma listCharEquiv_reverse :
    ∀ {a b : List Char}, listCharEquiv a b = true →
      listCharEquiv a.reverse b.reverse = true
  | [], [], _ => rfl
  | x :: a, y :: b, h => by
    simp only [listCharEquiv, Bool.and_eq_true] at h
    rw [List.reverse_cons, List.reverse_cons]
    exact listCharEquiv_append (listCharEquiv_reverse h.2)
      (by simp [listCharEquiv, h.1])
  | [], _ :: _, h => by simp [listCharEquiv] at h
  | _ :: _, [], h => by simp [listCharEquiv] at h

lemma listCharEquiv_dropWhile_ws :
    ∀ {a b : List Char}, listCharEquiv a b = true →
      listCharEquiv (a.dropWhile Char.isWhitespace) (b.dropWhile Char.isWhitespace) = true
  | [], [], _ => rfl
  | x :: a, y :: b, h => by
    simp only [listCharEquiv, Bool.and_eq_true] at h
    rw [List.dropWhile_cons, List.dropWhile_cons, charEquivB_ws h.1]
    by_cases hw : y.isWhitespace
    · rw [if_pos hw, if_pos hw]
      exact listCharEquiv_dropWhile_ws h.2
    · rw [if_neg hw, if_neg hw]
      simp only [listCharEquiv, Bool.and_eq_true]
      exact ⟨h.1, h.2⟩
  | [], _ :: _, h => by simp [listCharEquiv] at h
  | _ :: _, [], h => by simp [listCharEquiv] at h

lemma listCharEquiv_pyStrip {a b : List Char} (h : listCharEquiv a b = true) :
    listCharEquiv (pyStripList a) (pyStripList b) = true := by
  unfold pyStripList
  exact listCharEquiv_reverse (listCharEquiv_dropWhile_ws
    (listCharEquiv_reverse (listCharEquiv_dropWhile_ws h)))

lemma splitCore_equiv :
    ∀ {l₁ l₂ : List Char}, listCharEquiv l₁ l₂ = true →
      ∀ {acc₁ acc₂ : List Char}, listCharEquiv acc₁ acc₂ = true →
        partsEquiv (splitCore l₁ acc₁) (splitCore l₂ acc₂) = true
  | [], [], _, acc₁, acc₂, ha => by
    simp only [splitCore, partsEquiv, Bool.and_eq_true]
    exact ⟨listCharEquiv_reverse ha, trivial⟩
  | c₁ :: r₁, c₂ :: r₂, h, acc₁, acc₂, ha => by
    simp only [listCharEquiv, Bool.and_eq_true] at h
    rw [splitCore, splitCore, charEquivB_split h.1]
    by_cases hs : isSplitChar c₂
    · rw [if_pos hs, if_pos hs]
      simp only [partsEquiv, Bool.and_eq_true]
      exact ⟨listCharEquiv_reverse ha, splitCore_equiv h.2 rfl⟩
    · rw [if_neg hs, if_neg hs]
      exact splitCore_equiv h.2 (by simp only [listCharEquiv, Bool.and_eq_true]
                                    exact ⟨h.1, ha⟩)
  | [], _ :: _, h, _, _, _ => by simp [listCharEquiv] at h
  | _ :: _, [], h, _, _, _ => by simp [listCharEquiv] at h

lemma partsEquiv_map_strip :
    ∀ {ps qs : List (List Char)}, partsEquiv ps qs = true →
      partsEquiv (ps.map pyStripList) (qs.map pyStripList) = true
  | [], [], _ => rfl
  | p :: ps, q :: qs, h => by
    simp only [partsEquiv, Bool.and_eq_true] at h
    simp only [List.map_cons, partsEquiv, Bool.and_eq_true]
    exact ⟨listCharEquiv_pyStrip h.1, partsEquiv_map_strip h.2⟩
  | [], _ :: _, h => by simp [partsEquiv] at h
  | _ :: _, [], h => by simp [partsEquiv] at h

lemma partsEquiv_filter_nonempty :
    ∀ {ps qs : List (List Char)}, partsEquiv ps qs = true →
      partsEquiv (ps.filter (fun p => !p.isEmpty)) (qs.filter (fun p => !p.isEmpty)) = true
  | [], [], _ => rfl
  | p :: ps, q :: qs, h => by
    simp only [partsEquiv, Bool.and_eq_true] at h
    rw [List.filter_cons, List.filter_cons, listCharEquiv_isEmpty h.1]
    by_cases he : !q.isEmpty
    · rw [if_pos he, if_pos he]
      simp only [partsEquiv, Bool.and_eq_true]
      exact ⟨h.1, partsEquiv_filter_nonempty h.2⟩
    · rw [if_neg he, if_neg he]
      exact partsEquiv_filter_nonempty h.2
  | [], _ :: _, h => by simp [partsEquiv] at h
  | _ :: _, [], h => by simp [partsEquiv] at h

lemma partsEquiv_map_normList :
    ∀ {ps qs : List (List Char)}, partsEquiv ps qs = true →
      ps.map (fun p => normList p) = qs.map (fun p => normList p)
  | [], [], _ => rfl
  | p :: ps, q :: qs, h => by
    simp only [partsEquiv, Bool.and_eq_true] at h
    simp only [List.map_cons]
    rw [listCharEquiv_normList h.1, partsEquiv_map_normList h.2]
  | [], _ :: _, h => by simp [partsEquiv] at h
  | _ :: _, [], h => by simp [partsEquiv] at h

lemma nameParts_equiv {n₁ n₂ : String} (h : listCharEquiv n₁.data n₂.data = true) :
    partsEquiv (nameParts n₁) (nameParts n₂) = true :=
  partsEquiv_filter_nonempty (partsEquiv_map_strip (splitCore_equiv h rfl))

/-- `quick_name_check` is invariant under pointwise replacement of name
characters by `charEquivB`-equivalent ones, for every article. -/
lemma quick_name_check_congr (n₁ n₂ A : String)
    (h : listCharEquiv n₁.data n₂.data = true) :
    quick_name_check n₁ A = quick_name_check n₂ A := by
  have hnorm : normalize_for_matching n₁ = normalize_for_matching n₂ :=
    congrArg String.mk (listCharEquiv_normList h)
  have hparts : (nameParts n₁).map (fun p => normList p) =
      (nameParts n₂).map (fun p => normList p) :=
    partsEquiv_map_normList (nameParts_equiv h)
  have hemp : n₁ = "" ↔ n₂ = "" := by
    rw [string_eq_empty_iff, string_eq_empty_iff, ← List.isEmpty_iff, ← List.isEmpty_iff,
      listCharEquiv_isEmpty h]
  by_cases he : n₂ = ""
  · rw [show n₁ = "" from hemp.mpr he, he]
  · by_cases hA : A = ""
    · unfold quick_name_check
      rw [if_pos (Or.inr hA), if_pos (Or.inr hA)]
    · have g₁ : ¬(n₁ = "" ∨ A = "") := by simp [hemp.not.mpr he, hA]
      have g₂ : ¬(n₂ = "" ∨ A = "") := by simp [he, hA]
      unfold quick_name_check
      rw [if_neg g₁, if_neg g₂]
      dsimp only
      rw [hnorm, hparts]

/-- `findDecomp` only returns entries of its table. -/
lemma findDecomp_mem :
    ∀ (t : List (Char × Char × Char)) (c b m : Char),
      findDecomp t c = some (b, m) → (c, b, m) ∈ t
  | [], _, _, _, h => by simp [findDecomp] at h
  | (a, b', m') :: rest, c, b, m, h => by
    rw [findDecomp] at h
    by_cases hc : c = a
    · rw [if_pos hc] at h
      simp only [Option.some.injEq, Prod.mk.injEq] at h
      obtain ⟨hb, hm⟩ := h
      subst hc
      subst hb
      subst hm
      exact List.mem_cons_self _ _
    · rw [if_neg hc] at h
      exact List.mem_cons_of_mem _ (findDecomp_mem rest c b m h)

/-- Every table entry's base character is `charEquivB`-equivalent to the
accented character it decomposes. -/
lemma table_entry_equiv : ∀ e ∈ accentTable, charEquivB e.2.1 e.1 = true := by decide

lemma charEquivB_deaccent (c : Char) : charEquivB (deaccent c) c = true := by
  unfold deaccent
  cases hf : findDecomp accentTable c with
  | none => exact charEquivB_refl c
  | some bm =>
    obtain ⟨b, m⟩ := bm
    exact table_entry_equiv (c, b, m) (findDecomp_mem accentTable c b m hf)

lemma listCharEquiv_deaccent : ∀ l : List Char, listCharEquiv (l.map deaccent) l = true
  | [] => rfl
  | c :: r => by
    simp only [List.map_cons, listCharEquiv, Bool.and_eq_true]
    exact ⟨charEquivB_deaccent c, listCharEquiv_deaccent r⟩

/-- Claim C8: the Local Name Matcher is diacritic-invariant.  For every
article `A`, classifying `"José García"` and `"Jose Garcia"` agree; and more
generally replacing every accented character of any name by its unaccented
form (the base of its NFD decomposition) never changes the classification. -/
theorem c8_diacritic_invariance :
    (∀ A : String, quick_name_check "José García" A = quick_name_check "Jose Garcia" A) ∧
    (∀ N A : String,
      quick_name_check (String.mk (N.data.map deaccent)) A = quick_name_check N A) := by
  constructor
  · intro A
    exact quick_name_check_congr "José García" "Jose Garcia" A (by decide)
  · intro N A
    exact quick_name_check_congr (String.mk (N.data.map deaccent)) N A
      (listCharEquiv_deaccent N.data)

